import Mathlib

/-!
Verification of the ensemble signal-detection engine
(src/utils.js, src/signal/detectors.js, and the two EnsembleAI variants in
src/unnamed/part_001 and src/unnamed/part_002).

JavaScript numbers are modelled as rationals (`ℚ`).  `Math.sqrt` is modelled
by `sqrtQ`, a computable rational approximation of the real square root
(exact on perfect squares, absolute error below `1 / sqrtPrec` elsewhere).
`Math.round` is `round` (half-up, matching JS).  Division by zero, which JS
turns into `Infinity`/`NaN`, is rational division by zero (`= 0`); every
place where that matters is guarded in the source exactly as here.
-/

/-- Direction strings used throughout the source
(`'LONG' | 'SHORT' | 'NEUTRAL' | 'NO_TRADE'`). -/
inductive Dir where
| LONG
| SHORT
| NEUTRAL
| NO_TRADE
deriving DecidableEq, Repr, BEq

/-- One OHLCV candle (`{open, high, low, close, volume}`; the unused
`timestamp` field is omitted). -/
structure Candle where
  op : ℚ
  high : ℚ
  low : ℚ
  close : ℚ
  volume : ℚ
deriving DecidableEq, Repr

/-- Order-book snapshot: `bids`/`asks` are `[price, volume]` level lists. -/
structure Orderbook where
  bids : List (ℚ × ℚ)
  asks : List (ℚ × ℚ)
  volumeImbalance : ℚ
deriving DecidableEq, Repr

/-- The multi-timeframe market snapshot handed to the detectors:
`data['1m']`, `data['15m']`, `data['1h']`, `data['4h']`, `data.orderbook`,
`data.ticker?.last`.  A missing timeframe is the empty list
(the source reads `data[tf] || []`). -/
structure MarketData where
  m1 : List Candle := []
  m15 : List Candle := []
  h1 : List Candle := []
  h4 : List Candle := []
  orderbook : Option Orderbook := none
  ticker : Option ℚ := none
deriving DecidableEq, Repr

/-- A detector verdict.  `name` is `Option`al because the insufficient-data
early returns in the source omit the `name` field.  The numeric parts that
the source interpolates into `reason` strings are elided. -/
structure Verdict where
  name : Option String
  score : ℚ
  direction : Dir
  reason : String
deriving DecidableEq, Repr

/-- A verdict as returned by `runAllDetectors`: the detector verdict spread
together with its configured aggregation weight. -/
structure WeightedVerdict where
  name : Option String
  score : ℚ
  direction : Dir
  reason : String
  weight : ℚ
deriving DecidableEq, Repr

/-- `arr.reduce((a, b) => a + b, 0)`. -/
def sumQ (l : List ℚ) : ℚ := l.sum

/-- `Math.max(...arr)` (the sources only apply it to nonempty arrays;
the JS `-Infinity` of the empty spread is modelled as `0`). -/
def listMax : List ℚ → ℚ
| [] => 0
| h :: t => t.foldl max h

/-- `Math.min(...arr)` (same remark as for `listMax`). -/
def listMin : List ℚ → ℚ
| [] => 0
| h :: t => t.foldl min h

/-- `arr.slice(-n)`: the last `n` elements (the whole list when shorter). -/
def sliceLast (n : ℕ) (l : List α) : List α := l.drop (l.length - n)

/-- `arr[arr.length - 1]` under a nonemptiness guard (`0` for empty). -/
def lastD (l : List ℚ) : ℚ := l.getLast?.getD 0

/-- Scaling used by the rational model of `Math.sqrt`. -/
def sqrtPrec : ℕ := 10000

/-- Fuel-driven integer square root (the fuel only bounds the recursion
depth; with fuel `n` the result is the exact floor square root of `n`). -/
def sqrtAux : ℕ → ℕ → ℕ
| 0, _ => 0
| fuel + 1, n =>
  if n < 2 then n
  else
    let s := 2 * sqrtAux fuel (n / 4)
    if (s + 1) * (s + 1) ≤ n then s + 1 else s

/-- Exact floor square root on `ℕ`. -/
def intSqrt (n : ℕ) : ℕ := sqrtAux n n

/-- Rational model of `Math.sqrt`: exact on perfect squares and within
`1 / sqrtPrec` of the real square root elsewhere; `0` on nonpositive input. -/
def sqrtQ (q : ℚ) : ℚ :=
  if q ≤ 0 then 0
  else (intSqrt (q.num.toNat * q.den * sqrtPrec * sqrtPrec) : ℚ) / ((q.den : ℚ) * sqrtPrec)

/-- `x.toFixed(n)` followed by `parseFloat`: rounding to `n` decimal places. -/
def toFixedQ (n : ℕ) (q : ℚ) : ℚ := ((round (q * 10 ^ n) : ℤ) : ℚ) / 10 ^ n

/-- `Math.round`, as a rational. -/
def roundQ (q : ℚ) : ℚ := ((round q : ℤ) : ℚ)

namespace TradingUtils

/-- The Wilder smoothing loop shared by ATR (and the spec-modelled RSI):
seed with the mean of the first `period` values, then
`acc = (acc * (period - 1) + x) / period` over the rest. -/
def wilderSmooth (l : List ℚ) (period : ℕ) : ℚ :=
  (l.drop period).foldl (fun a x => (a * ((period : ℚ) - 1) + x) / period)
    (sumQ (l.take period) / period)

/-- `TradingUtils.calculateATR(candles, period = 14)` (src/utils.js):
true ranges from consecutive candles, Wilder-smoothed; `0` when fewer than
`period + 1` candles. -/
def calculateATR (candles : List Candle) (period : ℕ := 14) : ℚ :=
  if candles.length < period + 1 then 0
  else
    let trValues := (candles.zip candles.tail).map fun p =>
      max (p.2.high - p.2.low) (max |p.2.high - p.1.close| |p.2.low - p.1.close|)
    wilderSmooth trValues period

/-- `TradingUtils.calculateVWAP(candles)` (src/utils.js). -/
def calculateVWAP (candles : List Candle) : ℚ :=
  if candles = [] then 0
  else
    let tpv := sumQ (candles.map fun c => (c.high + c.low + c.close) / 3 * c.volume)
    let vol := sumQ (candles.map (·.volume))
    if 0 < vol then tpv / vol else 0

/-- `TradingUtils.calculateZScore(value, array)` (src/utils.js):
`(value - mean) / stddev`, `0` on empty input or zero deviation. -/
def calculateZScore (value : ℚ) (array : List ℚ) : ℚ :=
  if array = [] then 0
  else
    let mean := sumQ array / array.length
    let stdDev := sqrtQ (sumQ (array.map fun n => (n - mean) ^ 2) / array.length)
    if stdDev = 0 then 0 else (value - mean) / stdDev

/-- `Math.std(arr)` (patched onto `Math` at the bottom of
src/signal/detectors.js): population standard deviation, `0` on empty. -/
def mathStd (arr : List ℚ) : ℚ :=
  if arr = [] then 0
  else
    let mean := sumQ arr / arr.length
    sqrtQ (sumQ (arr.map fun n => (n - mean) ^ 2) / arr.length)

/-- Result of `TradingUtils.calculatePositionSize`. -/
structure PositionSize where
  size : ℚ
  maxLoss : ℚ
deriving DecidableEq, Repr

/-- `TradingUtils.calculatePositionSize(accountBalance, riskPercent, entry,
stopLoss)` (src/utils.js): `{size: 0, maxLoss: 0}` when the per-unit risk is
zero, otherwise `riskAmount / riskPerUnit` (the source's `toFixed`
formatting is modelled by decimal rounding). -/
def calculatePositionSize (accountBalance riskPercent entry stopLoss : ℚ) : PositionSize :=
  let riskAmount := accountBalance * (riskPercent / 100)
  let riskPerUnit := |entry - stopLoss|
  if riskPerUnit = 0 then ⟨0, 0⟩
  else ⟨toFixedQ 8 (riskAmount / riskPerUnit), toFixedQ 2 riskAmount⟩

/-- Modelled from the spec: the `RSI.calculate` of the external
`technicalindicators` package (not part of this repository), a standard
Wilder RSI; the src/utils.js wrapper returns `50` when fewer than
`period + 1` closes are available. -/
def calculateRSI (closes : List ℚ) (period : ℕ := 14) : ℚ :=
  if closes.length < period + 1 then 50
  else
    let diffs := (closes.zip closes.tail).map fun p => p.2 - p.1
    let avgGain := wilderSmooth (diffs.map fun x => max x 0) period
    let avgLoss := wilderSmooth (diffs.map fun x => max (-x) 0) period
    if avgLoss = 0 then 100 else 100 - 100 / (1 + avgGain / avgLoss)

/-- The `{upper, middle, lower}` band record. -/
structure BB where
  upper : ℚ
  middle : ℚ
  lower : ℚ
deriving DecidableEq, Repr

/-- Modelled from the spec: the `BollingerBands.calculate` of the external
`technicalindicators` package (not part of this repository); the
src/utils.js wrapper returns the last window's bands, `none` when fewer
than `period` closes are available. -/
def calculateBollingerBands (closes : List ℚ) (period : ℕ := 20) (stdDev : ℚ := 2) :
    Option BB :=
  if closes.length < period then none
  else
    let w := sliceLast period closes
    let middle := sumQ w / period
    let sd := sqrtQ (sumQ (w.map fun x => (x - middle) ^ 2) / period)
    some ⟨middle + stdDev * sd, middle, middle - stdDev * sd⟩

end TradingUtils

namespace SignalDetectors

/-- The per-detector configuration keys destructured (with these defaults)
by the detectors in src/signal/detectors.js. -/
structure Config where
  breakoutPeriod : ℕ := 20
  volumeMultiplier : ℚ := 3/2
  minBreakoutPercent : ℚ := 1
  vwapDelta : ℚ := 2/1000
  volumeUptick : ℚ := 12/10
  bbPeriod : ℕ := 20
  bbStdDev : ℚ := 2
  squeezePercentile : ℚ := 10
  volumeZScoreThreshold : ℚ := 2
  rsiOverbought : ℚ := 70
  rsiOversold : ℚ := 30
deriving DecidableEq, Repr

/-- The `config = {}` the adapter passes to `runAllDetectors`. -/
def defaultConfig : Config := {}

/-- `candles15m.map(c => c.high)`. -/
def highs15 (d : MarketData) : List ℚ := d.m15.map (·.high)

/-- `candles15m.map(c => c.volume)`. -/
def vols15 (d : MarketData) : List ℚ := d.m15.map (·.volume)

/-- `candles15m.map(c => c.close)`. -/
def closes15 (d : MarketData) : List ℚ := d.m15.map (·.close)

/-- `closes15m[closes15m.length - 1]`. -/
def currentClose15 (d : MarketData) : ℚ := lastD (closes15 d)

/-- `highs15m[highs15m.length - 1]`. -/
def currentHigh15 (d : MarketData) : ℚ := lastD (highs15 d)

/-- `volumes15m[volumes15m.length - 1]`. -/
def currentVolume15 (d : MarketData) : ℚ := lastD (vols15 d)

/-- `Math.max(...highs15m.slice(-breakoutPeriod))` — note that this trailing
window includes the final (current) candle. -/
def recentHigh (d : MarketData) (cfg : Config) : ℚ :=
  listMax (sliceLast cfg.breakoutPeriod (highs15 d))

/-- `Math.min(...highs15m.slice(-breakoutPeriod))` — the source takes the
minimum of the *highs*, not of the lows. -/
def recentLow (d : MarketData) (cfg : Config) : ℚ :=
  listMin (sliceLast cfg.breakoutPeriod (highs15 d))

/-- `volumes15m.slice(-breakoutPeriod).reduce((a,b) => a+b, 0) / breakoutPeriod`. -/
def volumeMA (d : MarketData) (cfg : Config) : ℚ :=
  sumQ (sliceLast cfg.breakoutPeriod (vols15 d)) / cfg.breakoutPeriod

/-- `TradingUtils.calculateZScore(currentVolume, volumes15m.slice(-breakoutPeriod))`. -/
def volumeZScore (d : MarketData) (cfg : Config) : ℚ :=
  TradingUtils.calculateZScore (currentVolume15 d) (sliceLast cfg.breakoutPeriod (vols15 d))

/-- `currentHigh >= recentHigh * (1 + minBreakoutPercent / 100)`. -/
def isBreakout (d : MarketData) (cfg : Config) : Bool :=
  decide (recentHigh d cfg * (1 + cfg.minBreakoutPercent / 100) ≤ currentHigh15 d)

/-- `volumeZScore > 1.0 && currentVolume > volumeMA * volumeMultiplier`. -/
def hasVolumeSpike (d : MarketData) (cfg : Config) : Bool :=
  decide (1 < volumeZScore d cfg) &&
    decide (volumeMA d cfg * cfg.volumeMultiplier < currentVolume15 d)

/-- `SignalDetectors.momentumBreakoutDetector(data, config)`
(src/signal/detectors.js lines 12-77). -/
def momentumBreakoutDetector (d : MarketData) (cfg : Config) : Verdict :=
  if d.m15.length < cfg.breakoutPeriod + 5 then
    ⟨none, 0, Dir.NEUTRAL, "Insufficient data"⟩
  else if isBreakout d cfg && hasVolumeSpike d cfg then
    let breakoutStrength := (currentHigh15 d - recentHigh d cfg) / recentHigh d cfg * 100
    let volumeStrength := min (volumeZScore d cfg) 3 / 3 * 100
    ⟨some "momentum_breakout",
      roundQ (min 100 ((breakoutStrength * (6/10) + volumeStrength * (4/10)) * 2)),
      Dir.LONG, "Breakout with volume spike"⟩
  else if decide (currentClose15 d < recentLow d cfg * (99/100)) && hasVolumeSpike d cfg then
    let breakdownStrength := (recentLow d cfg - currentClose15 d) / recentLow d cfg * 100
    ⟨some "momentum_breakout", roundQ (min 100 (breakdownStrength * (3/2))),
      Dir.SHORT, "Breakdown with volume spike"⟩
  else ⟨some "momentum_breakout", 0, Dir.NEUTRAL, "No breakout detected"⟩

/-- `candles[candles.length - 1]` under a nonemptiness guard. -/
def lastCandle (l : List Candle) : Candle := l.getLast?.getD ⟨0, 0, 0, 0, 0⟩

/-- `SignalDetectors.vwapPullbackDetector(data, config)`
(src/signal/detectors.js lines 82-139). -/
def vwapPullbackDetector (d : MarketData) (cfg : Config) : Verdict :=
  if d.m1.length < 50 ∨ d.m15.length < 20 then
    ⟨none, 0, Dir.NEUTRAL, "Insufficient data"⟩
  else
    let c1 := lastCandle d.m1
    let vwap := TradingUtils.calculateVWAP (sliceLast 50 d.m1)
    let currentPrice := c1.close
    let isAboveVWAP := decide (vwap < currentPrice)
    let isNearVWAP := decide (|currentPrice - vwap| / vwap ≤ cfg.vwapDelta)
    let isBullishReversal :=
      decide (c1.op < c1.close) && decide ((c1.high + c1.low) / 2 < c1.close)
    let recentVolumes := (sliceLast 10 d.m1).map (·.volume)
    let currentVolume := c1.volume
    let avgVolume := sumQ recentVolumes / recentVolumes.length
    let hasVolumeUptick := decide (avgVolume * cfg.volumeUptick < currentVolume)
    if isAboveVWAP && isNearVWAP && isBullishReversal && hasVolumeUptick then
      let vwapDistance := (currentPrice - vwap) / vwap * 100
      let volumeStrength := min (currentVolume / avgVolume) 3 / 3 * 100
      let reversalStrength := (c1.close - c1.op) / c1.op * 10000
      ⟨some "vwap_pullback",
        roundQ (min 100 (|vwapDistance| * 20 + volumeStrength * (3/10) + reversalStrength * 2)),
        Dir.LONG, "VWAP pullback"⟩
    else ⟨some "vwap_pullback", 0, Dir.NEUTRAL, "No VWAP pullback setup"⟩

/-- `SignalDetectors.volatilitySqueezeDetector(data, config)`
(src/signal/detectors.js lines 144-215). -/
def volatilitySqueezeDetector (d : MarketData) (cfg : Config) : Verdict :=
  if d.m15.length < cfg.bbPeriod + 10 then
    ⟨none, 0, Dir.NEUTRAL, "Insufficient data"⟩
  else
    let closes := closes15 d
    match TradingUtils.calculateBollingerBands closes cfg.bbPeriod cfg.bbStdDev with
    | none => ⟨none, 0, Dir.NEUTRAL, "Cannot calculate Bollinger Bands"⟩
    | some bb =>
      let bbWidth := (bb.upper - bb.lower) / bb.middle
      let historicalWidths := (List.range (closes.length - cfg.bbPeriod)).filterMap fun i =>
        (TradingUtils.calculateBollingerBands ((closes.drop i).take cfg.bbPeriod)
            cfg.bbPeriod cfg.bbStdDev).map
          fun h => (h.upper - h.lower) / h.middle
      let sortedWidths := historicalWidths.insertionSort (· ≤ ·)
      let percentileIndex := (⌊(sortedWidths.length : ℚ) * cfg.squeezePercentile / 100⌋).toNat
      let lowPercentileWidth := sortedWidths.getD percentileIndex 0
      let isSqueeze := decide (bbWidth ≤ lowPercentileWidth)
      let currentPrice := lastD closes
      let isAboveUpper := decide (bb.upper < currentPrice)
      let isBelowLower := decide (currentPrice < bb.lower)
      let volumes := vols15 d
      let vz := TradingUtils.calculateZScore (lastD volumes) (sliceLast 20 volumes)
      if isSqueeze && (isAboveUpper || isBelowLower) && decide ((1/2 : ℚ) < vz) then
        let squeezeStrength := (lowPercentileWidth - bbWidth) / lowPercentileWidth * 100
        let volumeStrength := min vz 3 / 3 * 100
        ⟨some "volatility_squeeze",
          roundQ (min 100 (squeezeStrength * (1/2) + volumeStrength * (1/2))),
          if isAboveUpper then Dir.LONG else Dir.SHORT, "Volatility squeeze breakout"⟩
      else ⟨some "volatility_squeeze", 0, Dir.NEUTRAL, "No volatility squeeze setup"⟩

/-- `SignalDetectors.orderbookSweepDetector(data, config)` — the simplified
top-3 imbalance version (src/signal/detectors.js lines 220-266). -/
def orderbookSweepDetector (d : MarketData) (_cfg : Config) : Verdict :=
  match d.orderbook with
  | none => ⟨none, 0, Dir.NEUTRAL, "No orderbook data"⟩
  | some ob =>
    if ob.bids = [] ∨ ob.asks = [] then ⟨none, 0, Dir.NEUTRAL, "Invalid orderbook data"⟩
    else
      let bidVolume := sumQ ((ob.bids.take 3).map (·.2))
      let askVolume := sumQ ((ob.asks.take 3).map (·.2))
      let imbalance := (bidVolume - askVolume) / (bidVolume + askVolume)
      if (3/10 : ℚ) < imbalance then
        ⟨some "orderbook_sweep", roundQ (min 100 (imbalance * 150)), Dir.LONG,
          "Strong buy pressure"⟩
      else if imbalance < -(3/10 : ℚ) then
        ⟨some "orderbook_sweep", roundQ (min 100 (|imbalance| * 150)), Dir.SHORT,
          "Strong sell pressure"⟩
      else ⟨some "orderbook_sweep", 0, Dir.NEUTRAL, "No significant orderbook imbalance"⟩

/-- `SignalDetectors.rsiMomentumDetector(data, config)`
(src/signal/detectors.js lines 330-374). -/
def rsiMomentumDetector (d : MarketData) (cfg : Config) : Verdict :=
  if d.m15.length < 15 ∨ d.h1.length < 15 then
    ⟨none, 0, Dir.NEUTRAL, "Insufficient data"⟩
  else
    let rsi15m := TradingUtils.calculateRSI (closes15 d) 14
    let rsi1h := TradingUtils.calculateRSI (d.h1.map (·.close)) 14
    if rsi15m < cfg.rsiOversold ∧ rsi1h < cfg.rsiOversold then
      ⟨some "rsi_momentum", roundQ (min 100 ((cfg.rsiOversold - rsi15m) * 3)),
        Dir.LONG, "Oversold"⟩
    else if cfg.rsiOverbought < rsi15m ∧ cfg.rsiOverbought < rsi1h then
      ⟨some "rsi_momentum", roundQ (min 100 ((rsi15m - cfg.rsiOverbought) * 3)),
        Dir.SHORT, "Overbought"⟩
    else ⟨some "rsi_momentum", 0, Dir.NEUTRAL, "RSI in neutral zone"⟩

/-- `SignalDetectors.volumeSpikeDetector(data, config)`
(src/signal/detectors.js lines 271-325). -/
def volumeSpikeDetector (d : MarketData) (cfg : Config) : Verdict :=
  if d.m15.length < 20 then ⟨none, 0, Dir.NEUTRAL, "Insufficient data"⟩
  else
    let volumes := vols15 d
    let closes := closes15 d
    let currentVolume := lastD volumes
    let currentClose := lastD closes
    let prevClose := lastD closes.dropLast
    let vz := TradingUtils.calculateZScore currentVolume (sliceLast 20 volumes)
    let priceChange := (currentClose - prevClose) / prevClose * 100
    if cfg.volumeZScoreThreshold < vz then
      if prevClose < currentClose then
        ⟨some "volume_spike", roundQ (min 100 (vz * 20 + max priceChange 0 * 10)),
          Dir.LONG, "Bullish volume spike"⟩
      else if currentClose < prevClose then
        ⟨some "volume_spike", roundQ (min 100 (vz * 20 + max |priceChange| 0 * 10)),
          Dir.SHORT, "Bearish volume spike"⟩
      else ⟨some "volume_spike", 0, Dir.NEUTRAL, "Volume spike but no clear direction"⟩
    else ⟨some "volume_spike", 0, Dir.NEUTRAL, "No significant volume spike"⟩

/-- `(candles1h[i].close - candles1h[i-1].close) / candles1h[i-1].close`
for `i = 1 .. length-1`. -/
def priceChanges1h (d : MarketData) : List ℚ :=
  let closes := d.h1.map (·.close)
  (closes.zip closes.tail).map fun p => (p.2 - p.1) / p.1

/-- `Math.std(priceChanges.slice(-5)) * 100`. -/
def recentVolatility (d : MarketData) : ℚ :=
  TradingUtils.mathStd (sliceLast 5 (priceChanges1h d)) * 100

/-- `Math.std(priceChanges) * 100`. -/
def historicalVolatility (d : MarketData) : ℚ :=
  TradingUtils.mathStd (priceChanges1h d) * 100

/-- `SignalDetectors.correlationBreakDetector(data, config)` — the
simplified version (src/signal/detectors.js lines 379-419).  The call to
`Math.random()` in its direction assignment is modelled by the explicit
parameter `rand`. -/
def correlationBreakDetector (d : MarketData) (_cfg : Config) (rand : ℚ) : Verdict :=
  if d.h1.length < 10 then
    ⟨none, 0, Dir.NEUTRAL, "Insufficient data for correlation analysis"⟩
  else if historicalVolatility d * 2 < recentVolatility d then
    ⟨some "correlation_break",
      roundQ (min 100 (recentVolatility d / historicalVolatility d * 25)),
      if (1/2 : ℚ) < rand then Dir.LONG else Dir.SHORT, "High volatility spike"⟩
  else ⟨some "correlation_break", 0, Dir.NEUTRAL, "Normal volatility"⟩

/-- The `try { ... } catch (error) { return NEUTRAL/0 with the message } `
boundary that wraps every detector body in src/signal/detectors.js. -/
def tryCatchVerdict (nm : String) (r : Except String Verdict) : Verdict :=
  match r with
  | .ok v => v
  | .error m => ⟨some nm, 0, Dir.NEUTRAL, "Error: " ++ m⟩

/-- `{...result, weight: detector.weight}`. -/
def withWeight (v : Verdict) (w : ℚ) : WeightedVerdict :=
  ⟨v.name, v.score, v.direction, v.reason, w⟩

/-- `SignalDetectors.runAllDetectors(data, config)`
(src/signal/detectors.js lines 424-456): the seven detectors in
registration order, each verdict spread together with its configured
weight. -/
def runAllDetectors (d : MarketData) (cfg : Config) (rand : ℚ) : List WeightedVerdict :=
  [withWeight (momentumBreakoutDetector d cfg) (12/10),
   withWeight (vwapPullbackDetector d cfg) (11/10),
   withWeight (volatilitySqueezeDetector d cfg) 1,
   withWeight (orderbookSweepDetector d cfg) (9/10),
   withWeight (rsiMomentumDetector d cfg) 1,
   withWeight (volumeSpikeDetector d cfg) 1,
   withWeight (correlationBreakDetector d cfg rand) (7/10)]

end SignalDetectors

/-- The `{LONG, SHORT, NEUTRAL}` direction-count object built by both
`calculateDetectorAgreement` variants. -/
structure Tally where
  LONG : ℕ
  SHORT : ℕ
  NEUTRAL : ℕ
deriving DecidableEq, Repr

namespace Ensemble1

/-!
Embedding of the "SIMPLIFIED AND STABLE" `EnsembleAI` class
(src/unnamed/part_001).
-/

/-- The `EnsembleAI` constructor configuration of src/unnamed/part_001. -/
structure Config where
  minConfidence : ℚ := 60
  minDetectorAgreement : ℕ := 2
deriving DecidableEq, Repr

/-- One step of the `forEach` in `calculateDetectorAgreement`
(src/unnamed/part_001 lines 22-26): tally a verdict only when its direction
is not NEUTRAL and its score exceeds 40.  (A `NO_TRADE` direction, which no
detector produces, would create a fresh object key in JS and leave the
LONG/SHORT/NEUTRAL counts unchanged, as here.) -/
def tallyStep (t : Tally) (v : WeightedVerdict) : Tally :=
  if v.direction ≠ Dir.NEUTRAL ∧ 40 < v.score then
    match v.direction with
    | Dir.LONG => { t with LONG := t.LONG + 1 }
    | Dir.SHORT => { t with SHORT := t.SHORT + 1 }
    | _ => t
  else t

/-- Agreement statistics of src/unnamed/part_001. -/
structure Agreement where
  directions : Tally
  majorityDirection : Dir
  majorityCount : ℕ
deriving DecidableEq, Repr

/-- `EnsembleAI.calculateDetectorAgreement(detectorResults)`
(src/unnamed/part_001 lines 19-37).  `Object.entries` filtered to the LONG
and SHORT rows and stably sorted by descending count puts SHORT first only
when its count is strictly greater, so the majority is never `NEUTRAL`. -/
def calculateDetectorAgreement (vs : List WeightedVerdict) : Agreement :=
  let t := vs.foldl tallyStep ⟨0, 0, 0⟩
  if t.LONG < t.SHORT then ⟨t, Dir.SHORT, t.SHORT⟩ else ⟨t, Dir.LONG, t.LONG⟩

/-- Accumulator of the `forEach` in the part_001 `calculateMetaScore`
(`totalScore` and `count`). -/
structure ScoreAcc where
  totalScore : ℚ
  count : ℕ
deriving DecidableEq, Repr

/-- One step of that `forEach`: verdicts matching the majority direction
with score > 40 contribute `score * (weight || 1.0)` and are counted. -/
def scoreStep (md : Dir) (acc : ScoreAcc) (v : WeightedVerdict) : ScoreAcc :=
  if v.direction = md ∧ 40 < v.score then
    ⟨acc.totalScore + v.score * (if v.weight = 0 then 1 else v.weight), acc.count + 1⟩
  else acc

/-- `EnsembleAI.calculateMetaScore(detectorResults, agreement)`
(src/unnamed/part_001 lines 42-66): `0` when the majority count is below
`minDetectorAgreement`; otherwise the `detector.weight || 1.0`-weighted
score total over verdicts matching the majority direction with score > 40,
divided by their number, plus the agreement bonus
`min(20, (majorityCount - 1) * 10)`, capped at 100. -/
def calculateMetaScore (cfg : Config) (vs : List WeightedVerdict) (ag : Agreement) : ℚ :=
  if ag.majorityCount < cfg.minDetectorAgreement then 0
  else
    let acc := vs.foldl (scoreStep ag.majorityDirection) ⟨0, 0⟩
    if acc.count = 0 then 0
    else
      min 100 (acc.totalScore / acc.count +
        min 20 (((ag.majorityCount : ℚ) - 1) * 10))

/-- The `{entry, sl, tp, rr}` record (src/unnamed/part_001; the `toFixed`
string formatting is modelled by decimal rounding). -/
structure Levels where
  entry : ℚ
  sl : ℚ
  tp : ℚ
  rr : ℚ
deriving DecidableEq, Repr

/-- `EnsembleAI.generateDefaultLevels(direction, currentPrice)`
(src/unnamed/part_001 lines 105-124): fixed 2% risk band and a 1.8-risk
take profit. -/
def generateDefaultLevels (direction : Dir) (currentPrice : ℚ) : Levels :=
  let riskPercent : ℚ := 2/100
  let stopLoss :=
    if direction = Dir.LONG then currentPrice * (1 - riskPercent)
    else currentPrice * (1 + riskPercent)
  let risk := |currentPrice - stopLoss|
  let takeProfit :=
    if direction = Dir.LONG then currentPrice + risk * (18/10)
    else currentPrice - risk * (18/10)
  ⟨toFixedQ 4 currentPrice, toFixedQ 4 stopLoss, toFixedQ 4 takeProfit,
    toFixedQ 2 (|takeProfit - currentPrice| / risk)⟩

/-- `EnsembleAI.generateLevels(direction, currentPrice, data)`
(src/unnamed/part_001 lines 71-100): ATR-based levels, falling back to
`generateDefaultLevels` when fewer than 10 fifteen-minute candles exist. -/
def generateLevels (direction : Dir) (currentPrice : ℚ) (d : MarketData) : Levels :=
  if d.m15.length < 10 then generateDefaultLevels direction currentPrice
  else
    let atr := TradingUtils.calculateATR d.m15
    let slDistance := atr * currentPrice * (8/10)
    let stopLoss :=
      if direction = Dir.LONG then currentPrice - slDistance
      else currentPrice + slDistance
    let risk := |currentPrice - stopLoss|
    let takeProfit :=
      if direction = Dir.LONG then currentPrice + risk * (18/10)
      else currentPrice - risk * (18/10)
    ⟨toFixedQ 4 currentPrice, toFixedQ 4 stopLoss, toFixedQ 4 takeProfit,
      toFixedQ 2 (|takeProfit - currentPrice| / risk)⟩

/-- The decision record returned by `EnsembleAI.analyze`
(src/unnamed/part_001; the `explain` payload and the interpolated numbers in
`reason` are elided). -/
structure Decision where
  direction : Dir
  confidence : ℚ
  levels : Option Levels
  reason : String
deriving DecidableEq, Repr

/-- `data['15m']?.[data['15m'].length - 1]?.close || data.ticker?.last || 0`. -/
def currentPriceOf (d : MarketData) : ℚ :=
  let c := ((d.m15.getLast?).map (·.close)).getD 0
  if c ≠ 0 then c else d.ticker.getD 0

/-- `EnsembleAI.analyze(detectorResults, data)` (src/unnamed/part_001 lines
129-167): trade with the majority direction when
`metaScore >= minConfidence && majorityCount >= minDetectorAgreement`,
otherwise a fully populated NO_TRADE decision. -/
def analyze (cfg : Config) (vs : List WeightedVerdict) (d : MarketData) : Decision :=
  let ag := calculateDetectorAgreement vs
  let ms := calculateMetaScore cfg vs ag
  if cfg.minConfidence ≤ ms ∧ cfg.minDetectorAgreement ≤ ag.majorityCount then
    ⟨ag.majorityDirection, roundQ ms,
      some (generateLevels ag.majorityDirection (currentPriceOf d) d),
      "detectors agree"⟩
  else ⟨Dir.NO_TRADE, roundQ ms, none, "Insufficient agreement"⟩

end Ensemble1

namespace Ensemble2

/-!
Embedding of the full `EnsembleAI` class (src/unnamed/part_002).
-/

/-- The `EnsembleAI` constructor configuration of src/unnamed/part_002.
The string keys of `timeOfDayMultipliers` (e.g. `'23-04'`) are represented
already split into their numeric bounds. -/
structure Config where
  minConfidence : ℚ := 60
  minDetectorAgreement : ℕ := 2
  detectorWeights : List (String × ℚ) :=
    [("momentum_breakout", 12/10), ("vwap_pullback", 11/10),
     ("volatility_squeeze", 1), ("orderbook_sweep", 9/10),
     ("funding_oi_divergence", 8/10), ("volume_spike", 1),
     ("correlation_break", 7/10)]
  timeOfDayMultipliers : List (ℕ × ℕ × ℚ) :=
    [(4, 10, 11/10), (10, 16, 1), (16, 20, 9/10), (20, 23, 8/10), (23, 4, 3/10)]
deriving DecidableEq, Repr

/-- `EnsembleAI.getTimeOfDayMultiplier()` (src/unnamed/part_002 lines
35-52), with the wall-clock hour passed explicitly: first range with
`start <= hour < end`, or a wraparound range (`start > end`) with
`hour >= start || hour < end`; `1.0` when nothing matches. -/
def getTimeOfDayMultiplier : List (ℕ × ℕ × ℚ) → ℕ → ℚ
| [], _ => 1
| (s, e, m) :: rest, hour =>
  if s ≤ hour ∧ hour < e then m
  else if e < s ∧ (s ≤ hour ∨ hour < e) then m
  else getTimeOfDayMultiplier rest hour

/-- Agreement statistics of src/unnamed/part_002. -/
structure Agreement where
  directions : Tally
  totalDirectional : ℕ
  majorityDirection : Dir
  majorityCount : ℕ
  agreementRatio : ℚ
deriving DecidableEq, Repr

/-- `EnsembleAI.calculateDetectorAgreement(detectorResults)`
(src/unnamed/part_002 lines 57-82): every non-NEUTRAL verdict is tallied
(no score filter in this variant); majority as in the simplified variant. -/
def calculateDetectorAgreement (vs : List WeightedVerdict) : Agreement :=
  let directional := vs.filter fun v => v.direction != Dir.NEUTRAL
  let t : Tally := ⟨directional.countP (fun v => v.direction == Dir.LONG),
    directional.countP (fun v => v.direction == Dir.SHORT), 0⟩
  let md := if t.LONG < t.SHORT then Dir.SHORT else Dir.LONG
  let mc := if t.LONG < t.SHORT then t.SHORT else t.LONG
  ⟨t, directional.length, md, mc,
    if 0 < directional.length then (mc : ℚ) / directional.length else 0⟩

/-- `detector.name.split('_')[0]` — the detector "family". -/
def familyOf (nm : Option String) : String := ((nm.getD "").splitOn "_").headD ""

/-- `this.config.detectorWeights[detector.name] || 1.0`. -/
def weightOf (cfg : Config) (nm : Option String) : ℚ :=
  match nm with
  | none => 1
  | some s =>
    match cfg.detectorWeights.lookup s with
    | none => 1
    | some w => if w = 0 then 1 else w

/-- `Set.add` on the detector-family set (only its size is consumed). -/
def insertFam (fams : List String) (f : String) : List String :=
  if f ∈ fams then fams else f :: fams

/-- Accumulator of the `forEach` in `calculateMetaScore`
(src/unnamed/part_002 lines 88-100). -/
structure MetaAcc where
  wSum : ℚ
  tW : ℚ
  fams : List String
deriving DecidableEq, Repr

/-- `detector.direction !== 'NEUTRAL' && detector.direction === majorityDirection`. -/
def agrees (md : Dir) (v : WeightedVerdict) : Bool :=
  !(v.direction == Dir.NEUTRAL) && v.direction == md

/-- One step of that `forEach`: verdicts that are non-NEUTRAL and agree with
the majority direction contribute `score * weight` and their family. -/
def metaStep (md : Dir) (cfg : Config) (acc : MetaAcc) (v : WeightedVerdict) : MetaAcc :=
  if agrees md v then
    ⟨acc.wSum + v.score * weightOf cfg v.name, acc.tW + weightOf cfg v.name,
      insertFam acc.fams (familyOf v.name)⟩
  else acc

/-- `EnsembleAI.calculateMetaScore(detectorResults, agreement)`
(src/unnamed/part_002 lines 87-115), with the wall-clock hour passed
explicitly: weighted average of the agreeing scores, plus
`min(20, (families - 1) * 5)`, times the time-of-day multiplier, clamped to
`[0, 100]`; `0` when the total weight is zero. -/
def calculateMetaScore (cfg : Config) (vs : List WeightedVerdict) (ag : Agreement)
    (hour : ℕ) : ℚ :=
  let acc := vs.foldl (metaStep ag.majorityDirection cfg) ⟨0, 0, []⟩
  if acc.tW = 0 then 0
  else
    min 100 (max 0
      ((acc.wSum / acc.tW + min 20 (((acc.fams.length : ℚ) - 1) * 5)) *
        getTimeOfDayMultiplier cfg.timeOfDayMultipliers hour))

end Ensemble2

namespace Ensemble2

/-- The meta-score formula exactly as the specification states it, written
independently of the `forEach` accumulation: the `weightOf`-weighted mean of
the scores of the verdicts agreeing with the majority direction, plus a
confluence bonus of 5 points per distinct detector family beyond the first
capped at 20, multiplied by the time-of-day multiplier, clamped to
`[0, 100]`. -/
def specMetaScore (cfg : Config) (vs : List WeightedVerdict) (md : Dir) (hour : ℕ) : ℚ :=
  let agreeing := vs.filter (agrees md)
  let weightedMean :=
    sumQ (agreeing.map fun v => v.score * weightOf cfg v.name) /
      sumQ (agreeing.map fun v => weightOf cfg v.name)
  let famCount : ℕ := ((agreeing.map fun v => familyOf v.name).toFinset).card
  min 100 (max 0
    ((weightedMean + min 20 (((famCount : ℚ) - 1) * 5)) *
      getTimeOfDayMultiplier cfg.timeOfDayMultipliers hour))

end Ensemble2

/-- A flat candle used to build concrete snapshots. -/
def flatCandle : Candle := ⟨100, 100, 100, 100, 100⟩

/-- 25 fifteen-minute candles: 24 flat candles at high 100 / volume 100,
then a final candle whose high 102 exceeds the maximum high of the prior 20
candles (100) by 2%, with volume 200 = 2x the prior-20-bar mean volume
(z-score over the trailing 20-bar window ≈ 4.36 > 1, and 200 > 105 * 1.5). -/
def c1data : MarketData := { m15 := List.replicate 24 flatCandle ++ [⟨100, 102, 100, 101, 200⟩] }

/-- 25 fifteen-minute candles: 24 flat candles, then a final candle closing
at 98.5 < 0.99 * 100 (the trailing low of the last 20 bars) with the same
volume spike; the breakdown is 1.5%, so `min(100, 1.5 * 1.5) = 2.25`. -/
def c5data : MarketData := { m15 := List.replicate 24 flatCandle ++ [⟨100, 100, 98, 197/2, 200⟩] }

/-- A one-hour candle with the given close. -/
def hCandle (c : ℚ) : Candle := ⟨100, 100, 100, c, 100⟩

/-- 26 one-hour candles: 21 flat closes followed by closes giving returns
`+0.3, -0.3, +0.3, -0.3, 0`, so the last-5-return volatility
(≈ 0.2683) exceeds twice the full-history volatility (2 * 0.12 = 0.24). -/
def c10data : MarketData :=
  { h1 := List.replicate 21 (hCandle 100) ++
      [hCandle 130, hCandle 91, hCandle (1183/10), hCandle (8281/100), hCandle (8281/100)] }

/-- A snapshot with no data at all. -/
def emptyData : MarketData := {}

/-- Two LONG verdicts from distinct detector families, as produced by the
suite, used to instantiate the universal theorems. -/
def demoVerdicts : List WeightedVerdict :=
  [⟨some "momentum_breakout", 80, Dir.LONG, "breakout", 12/10⟩,
   ⟨some "volume_spike", 70, Dir.LONG, "spike", 1⟩]

/-! ### Helper lemmas -/

/-- The fuel-driven square root meets the floor-square-root specification:
with fuel at least `n`, its square is at most `n` and the next square
exceeds `n`. -/
theorem sqrtAux_spec : ∀ (fuel n : ℕ), n ≤ fuel →
    sqrtAux fuel n * sqrtAux fuel n ≤ n ∧ n < (sqrtAux fuel n + 1) * (sqrtAux fuel n + 1) := by
  intro fuel
  induction fuel with
  | zero =>
    intro n hn
    interval_cases n
    decide
  | succ fuel ih =>
    intro n hn
    by_cases h2 : n < 2
    · unfold sqrtAux
      rw [if_pos h2]
      interval_cases n
      · decide
      · decide
    · unfold sqrtAux
      rw [if_neg h2]
      have hdle : n / 4 ≤ fuel := by
        have hlt : n / 4 < n := Nat.div_lt_self (by omega) (by omega)
        omega
      obtain ⟨h1, h2'⟩ := ih (n / 4) hdle
      set r := sqrtAux fuel (n / 4) with hr
      have hub : n < (2 * r + 2) * (2 * r + 2) := by
        have h4 : n < ((r + 1) * (r + 1)) * 4 := (Nat.div_lt_iff_lt_mul (by omega)).mp h2'
        nlinarith
      have hlb : (2 * r) * (2 * r) ≤ n := by
        have h4 : n / 4 * 4 ≤ n := Nat.div_mul_le_self n 4
        nlinarith
      dsimp only
      by_cases hs : (2 * r + 1) * (2 * r + 1) ≤ n
      · rw [if_pos hs]
        exact ⟨hs, hub⟩
      · rw [if_neg hs]
        exact ⟨hlb, Nat.lt_of_not_le hs⟩

/-- `intSqrt` is the exact floor square root. -/
theorem intSqrt_spec (n : ℕ) :
    intSqrt n * intSqrt n ≤ n ∧ n < (intSqrt n + 1) * (intSqrt n + 1) :=
  sqrtAux_spec n n le_rfl

/-- Scaling identity behind `sqrtQ`: a nonnegative rational times the
square of its scaled denominator is the natural number handed to `intSqrt`. -/
theorem scaled_eq (q : ℚ) (hq : 0 ≤ q) :
    q * (((q.den : ℚ) * sqrtPrec) * ((q.den : ℚ) * sqrtPrec)) =
      ((q.num.toNat * q.den * sqrtPrec * sqrtPrec : ℕ) : ℚ) := by
  have hnum : ((q.num.toNat : ℕ) : ℚ) = (q.num : ℚ) := by
    exact_mod_cast Int.toNat_of_nonneg (Rat.num_nonneg.mpr hq)
  have hden : ((q.den : ℚ)) ≠ 0 := by
    exact_mod_cast q.den_nz
  have key : q * (q.den : ℚ) = (q.num : ℚ) := by
    have h := div_mul_cancel₀ (q.num : ℚ) hden
    rwa [Rat.num_div_den] at h
  push_cast
  rw [hnum]
  calc q * ((q.den : ℚ) * (sqrtPrec : ℕ) * ((q.den : ℚ) * (sqrtPrec : ℕ)))
      = q * (q.den : ℚ) * ((q.den : ℚ) * (sqrtPrec : ℕ) * (sqrtPrec : ℕ)) := by ring
    _ = (q.num : ℚ) * ((q.den : ℚ) * (sqrtPrec : ℕ) * (sqrtPrec : ℕ)) := by rw [key]
    _ = (q.num : ℚ) * (q.den : ℚ) * (sqrtPrec : ℕ) * (sqrtPrec : ℕ) := by ring

/-- Soundness of the `Math.sqrt` model from below: `sqrtQ q` never
overshoots the real square root of a nonnegative `q`. -/
theorem sqrtQ_sq_le (q : ℚ) (hq : 0 ≤ q) : sqrtQ q * sqrtQ q ≤ q := by
  unfold sqrtQ
  by_cases h : q ≤ 0
  · rw [if_pos h]
    simpa using hq
  · rw [if_neg h]
    push_neg at h
    have hden : (0 : ℚ) < (q.den : ℚ) * sqrtPrec := by
      have h1 : (0:ℚ) < (q.den:ℚ) := by exact_mod_cast q.pos
      have h2 : (0:ℚ) < ((sqrtPrec : ℕ) : ℚ) := by norm_num [sqrtPrec]
      positivity
    rw [div_mul_div_comm, div_le_iff₀ (by positivity)]
    calc ((intSqrt (q.num.toNat * q.den * sqrtPrec * sqrtPrec) : ℚ) *
            (intSqrt (q.num.toNat * q.den * sqrtPrec * sqrtPrec) : ℚ))
        ≤ ((q.num.toNat * q.den * sqrtPrec * sqrtPrec : ℕ) : ℚ) := by
          exact_mod_cast (intSqrt_spec _).1
      _ = q * (((q.den : ℚ) * sqrtPrec) * ((q.den : ℚ) * sqrtPrec)) :=
          (scaled_eq q h.le).symm

/-- Soundness of the `Math.sqrt` model from above: `sqrtQ q` undershoots
the real square root of a positive `q` by less than
`1 / (q.den * sqrtPrec)`. -/
theorem lt_sqrtQ_add_inv_sq (q : ℚ) (hq : 0 < q) :
    q < (sqrtQ q + 1 / ((q.den : ℚ) * sqrtPrec)) *
          (sqrtQ q + 1 / ((q.den : ℚ) * sqrtPrec)) := by
  unfold sqrtQ
  rw [if_neg (not_le.mpr hq)]
  have hden : (0 : ℚ) < (q.den : ℚ) * sqrtPrec := by
    have h1 : (0:ℚ) < (q.den:ℚ) := by exact_mod_cast q.pos
    have h2 : (0:ℚ) < ((sqrtPrec : ℕ) : ℚ) := by norm_num [sqrtPrec]
    positivity
  rw [div_add_div_same, div_mul_div_comm, lt_div_iff₀ (by positivity)]
  calc q * (((q.den : ℚ) * sqrtPrec) * ((q.den : ℚ) * sqrtPrec))
      = ((q.num.toNat * q.den * sqrtPrec * sqrtPrec : ℕ) : ℚ) := scaled_eq q hq.le
    _ < ((intSqrt (q.num.toNat * q.den * sqrtPrec * sqrtPrec) : ℚ) + 1) *
          ((intSqrt (q.num.toNat * q.den * sqrtPrec * sqrtPrec) : ℚ) + 1) := by
        exact_mod_cast (intSqrt_spec _).2

theorem le_foldl_max (t : List ℚ) (b : ℚ) : b ≤ t.foldl max b := by
  induction t generalizing b with
  | nil => exact le_refl b
  | cons x t ih => exact le_trans (le_max_left b x) (ih (max b x))

theorem mem_le_foldl_max (t : List ℚ) (a b : ℚ) (h : a ∈ t) : a ≤ t.foldl max b := by
  induction t generalizing b with
  | nil => cases h
  | cons x t ih =>
    rcases List.mem_cons.mp h with rfl | hmem
    · exact le_trans (le_max_right b a) (le_foldl_max t (max b a))
    · exact ih (max b x) hmem

theorem le_listMax_of_mem {a : ℚ} {l : List ℚ} (h : a ∈ l) : a ≤ listMax l := by
  cases l with
  | nil => cases h
  | cons x t =>
    rcases List.mem_cons.mp h with rfl | hmem
    · exact le_foldl_max t a
    · exact mem_le_foldl_max t a x hmem

theorem lastD_mem {l : List ℚ} (h : l ≠ []) : lastD l ∈ l := by
  unfold lastD
  rw [List.getLast?_eq_getLast l h]
  exact List.getLast_mem h

theorem lastD_mem_drop : ∀ (k : ℕ) (l : List ℚ), k < l.length → lastD l ∈ l.drop k := by
  intro k
  induction k with
  | zero => intro l hl; simpa using lastD_mem (List.ne_nil_of_length_pos hl)
  | succ k ih =>
    intro l hl
    cases l with
    | nil => simp at hl
    | cons h t =>
      have ht : k < t.length := by simpa using hl
      have htne : t ≠ [] := List.ne_nil_of_length_pos (Nat.lt_of_le_of_lt (Nat.zero_le k) ht)
      have hlast : lastD (h :: t) = lastD t := by
        cases t with
        | nil => cases htne rfl
        | cons a t' => simp [lastD]
      rw [List.drop_succ_cons, hlast]
      exact ih t ht

theorem currentHigh_le_recentHigh (d : MarketData) (h : 25 ≤ d.m15.length) :
    SignalDetectors.currentHigh15 d ≤ SignalDetectors.recentHigh d SignalDetectors.defaultConfig := by
  have hlen : (SignalDetectors.highs15 d).length = d.m15.length := List.length_map _ _
  have hk : (SignalDetectors.highs15 d).length - 20 < (SignalDetectors.highs15 d).length := by
    omega
  exact le_listMax_of_mem (lastD_mem_drop _ _ hk)

theorem isBreakout_false (d : MarketData) (hlen : 25 ≤ d.m15.length)
    (hpos : 0 < SignalDetectors.recentHigh d SignalDetectors.defaultConfig) :
    SignalDetectors.isBreakout d SignalDetectors.defaultConfig = false := by
  have hle := currentHigh_le_recentHigh d hlen
  have hlt : SignalDetectors.currentHigh15 d <
      SignalDetectors.recentHigh d SignalDetectors.defaultConfig *
        (1 + SignalDetectors.defaultConfig.minBreakoutPercent / 100) := by
    have h2 : SignalDetectors.defaultConfig.minBreakoutPercent = 1 := by decide
    rw [h2]
    have hexp : SignalDetectors.recentHigh d SignalDetectors.defaultConfig * (1 + (1 : ℚ) / 100) =
        SignalDetectors.recentHigh d SignalDetectors.defaultConfig +
          SignalDetectors.recentHigh d SignalDetectors.defaultConfig / 100 := by ring
    rw [hexp]
    linarith
  simp only [SignalDetectors.isBreakout]
  exact decide_eq_false (not_le.mpr hlt)

/-! ### Claim theorems -/

set_option maxRecDepth 200000 in
/-- C1: the claim's premises (25-candle 15m series, final high 2% above the
prior-20 max, final volume twice the prior-20 mean, trailing-window volume
z-score above 1, volume above 1.5x the volume MA) hold at `c1data`, yet
`momentumBreakoutDetector` returns a NEUTRAL, score-0 verdict instead of
the claimed LONG with positive score: the trailing-20 window of the source
includes the final candle, so `currentHigh >= recentHigh * 1.01` cannot
hold for positive highs. -/
theorem c1_momentum_breakout_premises_yet_neutral :
    lastD (SignalDetectors.highs15 c1data) = 102 ∧
    listMax (((SignalDetectors.highs15 c1data).drop 4).take 20) = 100 ∧
    ((1 : ℚ) + 2 / 100) * 100 ≤ 102 ∧
    lastD (SignalDetectors.vols15 c1data) =
      2 * (sumQ (((SignalDetectors.vols15 c1data).drop 4).take 20) / 20) ∧
    1 < SignalDetectors.volumeZScore c1data SignalDetectors.defaultConfig ∧
    SignalDetectors.volumeMA c1data SignalDetectors.defaultConfig * (3/2) <
      lastD (SignalDetectors.vols15 c1data) ∧
    SignalDetectors.momentumBreakoutDetector c1data SignalDetectors.defaultConfig =
      ⟨some "momentum_breakout", 0, Dir.NEUTRAL, "No breakout detected"⟩ := by
  with_unfolding_all decide

/-- Helper: with the default configuration, the LONG (breakout) branch of
`momentumBreakoutDetector` is unreachable whenever the trailing-window
maximum is positive. -/
theorem momentum_breakout_long_unreachable (d : MarketData)
    (hpos : 0 < SignalDetectors.recentHigh d SignalDetectors.defaultConfig) :
    (SignalDetectors.momentumBreakoutDetector d SignalDetectors.defaultConfig).direction ≠
      Dir.LONG := by
  by_cases hlen : d.m15.length < 25
  · have hlt : d.m15.length < SignalDetectors.defaultConfig.breakoutPeriod + 5 := hlen
    unfold SignalDetectors.momentumBreakoutDetector
    rw [if_pos hlt]
    simp
  · have h25 : 25 ≤ d.m15.length := Nat.le_of_not_lt hlen
    have hbk := isBreakout_false d h25 hpos
    have h1 : ¬ (d.m15.length < SignalDetectors.defaultConfig.breakoutPeriod + 5) := hlen
    unfold SignalDetectors.momentumBreakoutDetector
    rw [if_neg h1, hbk]
    simp only [Bool.false_and, Bool.false_eq_true, if_false]
    split <;> simp

set_option maxRecDepth 200000 in
/-- C5 counterexample: at `c5data` every premise of the claim holds (25
bars, close below 0.99x the trailing low, volume z-score above 1, volume
above 1.5x the volume MA), and the detector goes SHORT, but its score is
the *rounded* value 2, not the claimed `min(100, breakdownPct * 1.5) = 2.25`. -/
theorem c5_rounding_counterexample :
    25 ≤ c5data.m15.length ∧
    SignalDetectors.currentClose15 c5data <
      SignalDetectors.recentLow c5data SignalDetectors.defaultConfig * (99/100) ∧
    1 < SignalDetectors.volumeZScore c5data SignalDetectors.defaultConfig ∧
    SignalDetectors.volumeMA c5data SignalDetectors.defaultConfig * (3/2) <
      SignalDetectors.currentVolume15 c5data ∧
    (SignalDetectors.momentumBreakoutDetector c5data SignalDetectors.defaultConfig).direction =
      Dir.SHORT ∧
    (SignalDetectors.momentumBreakoutDetector c5data SignalDetectors.defaultConfig).score = 2 ∧
    min 100 ((SignalDetectors.recentLow c5data SignalDetectors.defaultConfig -
        SignalDetectors.currentClose15 c5data) /
      SignalDetectors.recentLow c5data SignalDetectors.defaultConfig * 100 * (3/2)) = 9/4 ∧
    (2 : ℚ) ≠ 9/4 := by
  with_unfolding_all decide

/-- C5 (amended): on a 15m series of at least 25 candles with positive
trailing-window maximum, when the current close is below 0.99x the trailing
low (the minimum of the highs of the last 20 bars, as the source computes
it) and the volume confirmation holds, the detector returns SHORT with
score `Math.round(min(100, breakdownPct * 1.5))`. -/
theorem c5_breakdown_short_rounded (d : MarketData)
    (hlen : 25 ≤ d.m15.length)
    (hpos : 0 < SignalDetectors.recentHigh d SignalDetectors.defaultConfig)
    (hbd : SignalDetectors.currentClose15 d <
      SignalDetectors.recentLow d SignalDetectors.defaultConfig * (99/100))
    (hz : 1 < SignalDetectors.volumeZScore d SignalDetectors.defaultConfig)
    (hvol : SignalDetectors.volumeMA d SignalDetectors.defaultConfig * (3/2) <
      SignalDetectors.currentVolume15 d) :
    SignalDetectors.momentumBreakoutDetector d SignalDetectors.defaultConfig =
      ⟨some "momentum_breakout",
        roundQ (min 100 ((SignalDetectors.recentLow d SignalDetectors.defaultConfig -
            SignalDetectors.currentClose15 d) /
          SignalDetectors.recentLow d SignalDetectors.defaultConfig * 100 * (3/2))),
        Dir.SHORT, "Breakdown with volume spike"⟩ := by
  have h1 : ¬ (d.m15.length < SignalDetectors.defaultConfig.breakoutPeriod + 5) := by
    have hbp : SignalDetectors.defaultConfig.breakoutPeriod = 20 := rfl
    omega
  have hvs : SignalDetectors.hasVolumeSpike d SignalDetectors.defaultConfig = true := by
    unfold SignalDetectors.hasVolumeSpike
    rw [Bool.and_eq_true]
    exact ⟨decide_eq_true hz, decide_eq_true hvol⟩
  have hbk := isBreakout_false d hlen hpos
  unfold SignalDetectors.momentumBreakoutDetector
  rw [if_neg h1, hbk]
  simp only [Bool.false_and, Bool.false_eq_true, if_false]
  rw [decide_eq_true hbd, hvs]
  simp

set_option maxRecDepth 200000 in
/-- Witness for the amended C5 theorem: its hypotheses hold at `c5data` and
the theorem applied there gives the SHORT verdict with rounded score. -/
theorem c5_breakdown_short_rounded_witness :
    (25 ≤ c5data.m15.length ∧
     0 < SignalDetectors.recentHigh c5data SignalDetectors.defaultConfig ∧
     SignalDetectors.currentClose15 c5data <
       SignalDetectors.recentLow c5data SignalDetectors.defaultConfig * (99/100) ∧
     1 < SignalDetectors.volumeZScore c5data SignalDetectors.defaultConfig ∧
     SignalDetectors.volumeMA c5data SignalDetectors.defaultConfig * (3/2) <
       SignalDetectors.currentVolume15 c5data) ∧
    SignalDetectors.momentumBreakoutDetector c5data SignalDetectors.defaultConfig =
      ⟨some "momentum_breakout",
        roundQ (min 100 ((SignalDetectors.recentLow c5data SignalDetectors.defaultConfig -
            SignalDetectors.currentClose15 c5data) /
          SignalDetectors.recentLow c5data SignalDetectors.defaultConfig * 100 * (3/2))),
        Dir.SHORT, "Breakdown with volume spike"⟩ :=
  ⟨⟨by with_unfolding_all decide, by with_unfolding_all decide, by with_unfolding_all decide,
    by with_unfolding_all decide, by with_unfolding_all decide⟩,
   c5_breakdown_short_rounded c5data (by with_unfolding_all decide)
     (by with_unfolding_all decide) (by with_unfolding_all decide)
     (by with_unfolding_all decide) (by with_unfolding_all decide)⟩

set_option maxRecDepth 200000 in
/-- C6: with fewer than 10 fifteen-minute candles, `generateLevels` for
LONG at price 100 takes the fallback path: stop loss 98 (fixed 2% risk
band), take profit 103.6, risk/reward exactly 1.8. -/
theorem c6_fallback_levels (d : MarketData) (h : d.m15.length < 10) :
    Ensemble1.generateLevels Dir.LONG 100 d = ⟨100, 98, 518/5, 9/5⟩ := by
  unfold Ensemble1.generateLevels
  rw [if_pos h]
  with_unfolding_all decide

/-- Witness for C6 at the empty snapshot. -/
theorem c6_fallback_levels_witness :
    emptyData.m15.length < 10 ∧
    Ensemble1.generateLevels Dir.LONG 100 emptyData = ⟨100, 98, 518/5, 9/5⟩ :=
  ⟨by decide, c6_fallback_levels emptyData (by decide)⟩

/-- C7: the detector try/catch boundary converts any fault into a NEUTRAL,
score-0 verdict whose reason carries the fault message, and
`runAllDetectors` always returns the full ordered list of all seven
verdicts, each carrying its configured weight. -/
theorem c7_detector_boundary_and_suite :
    (∀ nm m, SignalDetectors.tryCatchVerdict nm (Except.error m) =
      ⟨some nm, 0, Dir.NEUTRAL, "Error: " ++ m⟩) ∧
    ∀ d cfg rand,
      (SignalDetectors.runAllDetectors d cfg rand).length = 7 ∧
      (SignalDetectors.runAllDetectors d cfg rand).map WeightedVerdict.weight =
        [12/10, 11/10, 1, 9/10, 1, 1, 7/10] :=
  ⟨fun _ _ => rfl, fun _ _ _ => ⟨rfl, rfl⟩⟩

/-- C8: `calculatePositionSize` returns `{size: 0, maxLoss: 0}` whenever
entry equals stop loss, and in particular at `(1000, 2, 100, 100)`. -/
theorem c8_position_size_zero_guard :
    (∀ accountBalance riskPercent entry stopLoss : ℚ, entry = stopLoss →
      TradingUtils.calculatePositionSize accountBalance riskPercent entry stopLoss = ⟨0, 0⟩) ∧
    TradingUtils.calculatePositionSize 1000 2 100 100 = ⟨0, 0⟩ := by
  constructor
  · intro b r e sl h
    subst h
    unfold TradingUtils.calculatePositionSize
    simp
  · with_unfolding_all decide

/-- Witness for C8: the guard applied at a fresh input. -/
theorem c8_position_size_zero_guard_witness :
    TradingUtils.calculatePositionSize 5 3 7 7 = ⟨0, 0⟩ :=
  c8_position_size_zero_guard.1 5 3 7 7 rfl

set_option maxRecDepth 200000 in
/-- C9: with the wraparound range `'23-04'` mapped to 0.3 (both alone and
inside the default configuration), `getTimeOfDayMultiplier` at hour 2
returns 0.3: the `start > end` branch matches `hour >= start || hour < end`. -/
theorem c9_wraparound_multiplier :
    Ensemble2.getTimeOfDayMultiplier [(23, 4, 3/10)] 2 = 3/10 ∧
    Ensemble2.getTimeOfDayMultiplier ({} : Ensemble2.Config).timeOfDayMultipliers 2 = 3/10 := by
  with_unfolding_all decide

set_option maxRecDepth 200000 in
/-- C10: `correlationBreakDetector` is not a function of the snapshot
alone: at `c10data` (at least 10 one-hour candles, last-5-return volatility
above twice the full-history volatility) the `Math.random()` draw, modelled
as the explicit `rand` argument, flips the direction between LONG and
SHORT, and consequently two runs of `runAllDetectors` on the identical
snapshot disagree. -/
theorem c10_correlation_break_nondeterminism :
    10 ≤ c10data.h1.length ∧
    SignalDetectors.historicalVolatility c10data * 2 < SignalDetectors.recentVolatility c10data ∧
    (SignalDetectors.correlationBreakDetector c10data SignalDetectors.defaultConfig
      (6/10)).direction = Dir.LONG ∧
    (SignalDetectors.correlationBreakDetector c10data SignalDetectors.defaultConfig
      (4/10)).direction = Dir.SHORT ∧
    SignalDetectors.runAllDetectors c10data SignalDetectors.defaultConfig (6/10) ≠
      SignalDetectors.runAllDetectors c10data SignalDetectors.defaultConfig (4/10) := by
  with_unfolding_all decide

/-- Helper: the LONG tally of the part_001 agreement fold counts exactly
the verdicts with direction LONG and score above 40. -/
theorem tallyFold_LONG :
    ∀ (vs : List WeightedVerdict) (t : Tally),
      (vs.foldl Ensemble1.tallyStep t).LONG =
        t.LONG + vs.countP (fun v => decide (v.direction = Dir.LONG) && decide (40 < v.score)) := by
  intro vs
  induction vs with
  | nil => intro t; simp
  | cons v vs ih =>
    intro t
    rw [List.foldl_cons, List.countP_cons, ih]
    unfold Ensemble1.tallyStep
    by_cases h40 : (40 : ℚ) < v.score
    · cases hd : v.direction <;> simp [hd, h40] <;> try omega
    · cases hd : v.direction <;> simp [hd, h40]

/-- Helper: the SHORT tally of the part_001 agreement fold counts exactly
the verdicts with direction SHORT and score above 40. -/
theorem tallyFold_SHORT :
    ∀ (vs : List WeightedVerdict) (t : Tally),
      (vs.foldl Ensemble1.tallyStep t).SHORT =
        t.SHORT + vs.countP (fun v => decide (v.direction = Dir.SHORT) && decide (40 < v.score)) := by
  intro vs
  induction vs with
  | nil => intro t; simp
  | cons v vs ih =>
    intro t
    rw [List.foldl_cons, List.countP_cons, ih]
    unfold Ensemble1.tallyStep
    by_cases h40 : (40 : ℚ) < v.score
    · cases hd : v.direction <;> simp [hd, h40] <;> try omega
    · cases hd : v.direction <;> simp [hd, h40]

/-- Helper: the part_001 majority direction is never NEUTRAL. -/
theorem ensemble1_majority_ne_neutral (vs : List WeightedVerdict) :
    (Ensemble1.calculateDetectorAgreement vs).majorityDirection ≠ Dir.NEUTRAL := by
  unfold Ensemble1.calculateDetectorAgreement
  dsimp only
  split <;> simp

/-- C3: the agreement computation tallies a verdict toward LONG (resp.
SHORT) exactly when its direction is LONG (resp. SHORT) and its score is
strictly greater than 40, so verdicts with non-NEUTRAL direction but score
at most 40 contribute to neither tally. -/
theorem c3_material_score_filter (vs : List WeightedVerdict) :
    (Ensemble1.calculateDetectorAgreement vs).directions.LONG =
      vs.countP (fun v => decide (v.direction = Dir.LONG) && decide (40 < v.score)) ∧
    (Ensemble1.calculateDetectorAgreement vs).directions.SHORT =
      vs.countP (fun v => decide (v.direction = Dir.SHORT) && decide (40 < v.score)) := by
  have hdir : (Ensemble1.calculateDetectorAgreement vs).directions =
      vs.foldl Ensemble1.tallyStep ⟨0, 0, 0⟩ := by
    unfold Ensemble1.calculateDetectorAgreement
    dsimp only
    split <;> rfl
  rw [hdir, tallyFold_LONG, tallyFold_SHORT]
  exact ⟨by simp, by simp⟩

/-- C2: the part_001 aggregator trades only when the majority direction is
not NEUTRAL, the majority count reaches `minDetectorAgreement`, and the
meta-score reaches `minConfidence`; in particular, whenever the majority
count is below `minDetectorAgreement`, the meta-score is 0 and the
decision direction is NO_TRADE. -/
theorem c2_aggregator_gating (cfg : Ensemble1.Config) (vs : List WeightedVerdict)
    (d : MarketData) :
    ((Ensemble1.calculateDetectorAgreement vs).majorityCount < cfg.minDetectorAgreement →
      Ensemble1.calculateMetaScore cfg vs (Ensemble1.calculateDetectorAgreement vs) = 0 ∧
      (Ensemble1.analyze cfg vs d).direction = Dir.NO_TRADE) ∧
    ((Ensemble1.analyze cfg vs d).direction ≠ Dir.NO_TRADE →
      (Ensemble1.calculateDetectorAgreement vs).majorityDirection ≠ Dir.NEUTRAL ∧
      cfg.minDetectorAgreement ≤ (Ensemble1.calculateDetectorAgreement vs).majorityCount ∧
      cfg.minConfidence ≤ Ensemble1.calculateMetaScore cfg vs
        (Ensemble1.calculateDetectorAgreement vs)) := by
  constructor
  · intro hlt
    have hms : Ensemble1.calculateMetaScore cfg vs (Ensemble1.calculateDetectorAgreement vs) = 0 := by
      unfold Ensemble1.calculateMetaScore
      rw [if_pos hlt]
    refine ⟨hms, ?_⟩
    have hno : ¬ (cfg.minConfidence ≤
        Ensemble1.calculateMetaScore cfg vs (Ensemble1.calculateDetectorAgreement vs) ∧
        cfg.minDetectorAgreement ≤ (Ensemble1.calculateDetectorAgreement vs).majorityCount) :=
      fun hc => absurd hc.2 (Nat.not_le.mpr hlt)
    simp only [Ensemble1.analyze]
    rw [if_neg hno]
  · intro hne
    by_cases hc : cfg.minConfidence ≤
        Ensemble1.calculateMetaScore cfg vs (Ensemble1.calculateDetectorAgreement vs) ∧
        cfg.minDetectorAgreement ≤ (Ensemble1.calculateDetectorAgreement vs).majorityCount
    · exact ⟨ensemble1_majority_ne_neutral vs, hc.2, hc.1⟩
    · exfalso
      apply hne
      simp only [Ensemble1.analyze]
      rw [if_neg hc]

/-- Witness for C2: the empty verdict list has majority count 0 below the
default threshold 2, meta-score 0, and a NO_TRADE decision. -/
theorem c2_aggregator_gating_witness :
    (Ensemble1.calculateDetectorAgreement []).majorityCount <
      ({} : Ensemble1.Config).minDetectorAgreement ∧
    Ensemble1.calculateMetaScore {} [] (Ensemble1.calculateDetectorAgreement []) = 0 ∧
    (Ensemble1.analyze {} [] emptyData).direction = Dir.NO_TRADE := by
  have h :=
    (c2_aggregator_gating {} [] emptyData).1 (by with_unfolding_all decide)
  exact ⟨by with_unfolding_all decide, h.1, h.2⟩

/-- Helper: the `wSum` accumulated by the part_002 meta-score `forEach`
equals the sum of `score * weight` over the agreeing verdicts. -/
theorem metaFold_wSum (md : Dir) (cfg : Ensemble2.Config) :
    ∀ (vs : List WeightedVerdict) (acc : Ensemble2.MetaAcc),
      (vs.foldl (Ensemble2.metaStep md cfg) acc).wSum =
        acc.wSum + sumQ ((vs.filter (Ensemble2.agrees md)).map
          fun v => v.score * Ensemble2.weightOf cfg v.name) := by
  intro vs
  induction vs with
  | nil => intro acc; simp [sumQ]
  | cons v vs ih =>
    intro acc
    by_cases h : Ensemble2.agrees md v
    · simp only [List.foldl_cons, List.filter_cons, h, if_true, List.map_cons, ih,
        Ensemble2.metaStep, sumQ, List.sum_cons]
      ring
    · simp only [List.foldl_cons, List.filter_cons, h, Bool.false_eq_true, if_false, ih,
        Ensemble2.metaStep, sumQ]

/-- Helper: the `totalWeight` accumulated by the part_002 meta-score
`forEach` equals the sum of weights over the agreeing verdicts. -/
theorem metaFold_tW (md : Dir) (cfg : Ensemble2.Config) :
    ∀ (vs : List WeightedVerdict) (acc : Ensemble2.MetaAcc),
      (vs.foldl (Ensemble2.metaStep md cfg) acc).tW =
        acc.tW + sumQ ((vs.filter (Ensemble2.agrees md)).map
          fun v => Ensemble2.weightOf cfg v.name) := by
  intro vs
  induction vs with
  | nil => intro acc; simp [sumQ]
  | cons v vs ih =>
    intro acc
    by_cases h : Ensemble2.agrees md v
    · simp only [List.foldl_cons, List.filter_cons, h, if_true, List.map_cons, ih,
        Ensemble2.metaStep, sumQ, List.sum_cons]
      ring
    · simp only [List.foldl_cons, List.filter_cons, h, Bool.false_eq_true, if_false, ih,
        Ensemble2.metaStep, sumQ]

/-- Helper: the family set insertion keeps the list duplicate-free. -/
theorem insertFam_nodup (fs : List String) (f : String) (h : fs.Nodup) :
    (Ensemble2.insertFam fs f).Nodup := by
  unfold Ensemble2.insertFam
  split
  · exact h
  · exact List.nodup_cons.mpr ⟨by assumption, h⟩

/-- Helper: the family set insertion is `insert` on the underlying finset. -/
theorem insertFam_toFinset (fs : List String) (f : String) :
    (Ensemble2.insertFam fs f).toFinset = insert f fs.toFinset := by
  unfold Ensemble2.insertFam
  split
  · next hmem => exact (Finset.insert_eq_self.mpr (List.mem_toFinset.mpr hmem)).symm
  · simp

/-- Helper: the family list accumulated by the part_002 meta-score
`forEach` stays duplicate-free. -/
theorem metaFold_fams_nodup (md : Dir) (cfg : Ensemble2.Config) :
    ∀ (vs : List WeightedVerdict) (acc : Ensemble2.MetaAcc), acc.fams.Nodup →
      ((vs.foldl (Ensemble2.metaStep md cfg) acc).fams).Nodup := by
  intro vs
  induction vs with
  | nil => intro acc h; exact h
  | cons v vs ih =>
    intro acc h
    rw [List.foldl_cons]
    by_cases hv : Ensemble2.agrees md v
    · exact ih _ (by simp only [Ensemble2.metaStep, hv, if_true]; exact insertFam_nodup _ _ h)
    · exact ih _ (by simp only [Ensemble2.metaStep, hv, Bool.false_eq_true, if_false]; exact h)

/-- Helper: as a finset, the accumulated family list is the union of the
starting set and the families of the agreeing verdicts. -/
theorem metaFold_fams_toFinset (md : Dir) (cfg : Ensemble2.Config) :
    ∀ (vs : List WeightedVerdict) (acc : Ensemble2.MetaAcc),
      ((vs.foldl (Ensemble2.metaStep md cfg) acc).fams).toFinset =
        acc.fams.toFinset ∪
          (((vs.filter (Ensemble2.agrees md)).map fun v => Ensemble2.familyOf v.name).toFinset) := by
  intro vs
  induction vs with
  | nil => intro acc; simp
  | cons v vs ih =>
    intro acc
    rw [List.foldl_cons]
    by_cases hv : Ensemble2.agrees md v
    · rw [List.filter_cons_of_pos hv, List.map_cons, List.toFinset_cons, ih]
      have hstep : (Ensemble2.metaStep md cfg acc v).fams =
          Ensemble2.insertFam acc.fams (Ensemble2.familyOf v.name) := by
        simp [Ensemble2.metaStep, hv]
      rw [hstep, insertFam_toFinset, Finset.insert_union, Finset.union_insert]
    · rw [List.filter_cons_of_neg (by simpa using hv)]
      have hstep : (Ensemble2.metaStep md cfg acc v).fams = acc.fams := by
        simp [Ensemble2.metaStep, hv]
      rw [ih, hstep]

/-- Helper: the size of the accumulated family set equals the number of
distinct families among the agreeing verdicts. -/
theorem metaFold_fams_length (md : Dir) (cfg : Ensemble2.Config) (vs : List WeightedVerdict) :
    ((vs.foldl (Ensemble2.metaStep md cfg) ⟨0, 0, []⟩).fams).length =
      ((((vs.filter (Ensemble2.agrees md)).map fun v => Ensemble2.familyOf v.name)).toFinset).card := by
  have hnd : ((vs.foldl (Ensemble2.metaStep md cfg) ⟨0, 0, []⟩).fams).Nodup :=
    metaFold_fams_nodup md cfg vs ⟨0, 0, []⟩ (by simp)
  rw [← List.toFinset_card_of_nodup hnd, metaFold_fams_toFinset]
  simp

/-- Helper: a successful `lookup` result is a member of the pair list. -/
theorem lookup_mem_weights :
    ∀ (l : List (String × ℚ)) (s : String) (w : ℚ), l.lookup s = some w → (s, w) ∈ l := by
  intro l
  induction l with
  | nil => intro s w h; simp [List.lookup] at h
  | cons p t ih =>
    intro s w h
    cases p with
    | mk k v =>
      by_cases hk : s == k
      · have hs : s = k := eq_of_beq hk
        simp [List.lookup, hk] at h
        subst hs h
        exact List.mem_cons_self _ _
      · simp [List.lookup, hk] at h
        exact List.mem_cons_of_mem _ (ih s w h)

/-- Helper: with positively configured weights, `weightOf` is positive
(unknown and zero-valued names fall back to the positive default 1.0). -/
theorem weightOf_pos (cfg : Ensemble2.Config)
    (hw : ∀ p ∈ cfg.detectorWeights, 0 < p.2) (nm : Option String) :
    0 < Ensemble2.weightOf cfg nm := by
  unfold Ensemble2.weightOf
  cases nm with
  | none => exact one_pos
  | some s =>
    cases hl : cfg.detectorWeights.lookup s with
    | none => simp [hl]
    | some w =>
      simp only [hl]
      split
      · exact one_pos
      · exact hw (s, w) (lookup_mem_weights _ s w hl)

/-- Helper: tallying a direction `dd` other than NEUTRAL over the
directional verdicts is a plain count over the whole list. -/
theorem countP_directional (vs : List WeightedVerdict) (dd : Dir) (hdd : dd ≠ Dir.NEUTRAL) :
    (vs.filter fun v => v.direction != Dir.NEUTRAL).countP (fun v => v.direction == dd) =
      vs.countP (fun v => decide (v.direction = dd)) := by
  rw [List.countP_filter]
  apply List.countP_congr
  intro v _
  rcases v with ⟨nm, sc, dir, rsn, w⟩
  cases dir <;> cases dd <;> first | rfl | exact absurd rfl hdd

/-- Helper: the part_002 majority direction is LONG or SHORT, and the
majority count is the number of verdicts pointing in that direction. -/
theorem ensemble2_majority_spec (vs : List WeightedVerdict) :
    ((Ensemble2.calculateDetectorAgreement vs).majorityDirection = Dir.LONG ∨
     (Ensemble2.calculateDetectorAgreement vs).majorityDirection = Dir.SHORT) ∧
    (Ensemble2.calculateDetectorAgreement vs).majorityCount =
      vs.countP (fun v =>
        decide (v.direction = (Ensemble2.calculateDetectorAgreement vs).majorityDirection)) := by
  unfold Ensemble2.calculateDetectorAgreement
  dsimp only
  by_cases hlt :
      (vs.filter fun v => v.direction != Dir.NEUTRAL).countP (fun v => v.direction == Dir.LONG) <
      (vs.filter fun v => v.direction != Dir.NEUTRAL).countP (fun v => v.direction == Dir.SHORT)
  · simp only [hlt, if_true]
    exact ⟨Or.inr trivial, countP_directional vs Dir.SHORT (by simp)⟩
  · simp only [hlt, if_false]
    exact ⟨Or.inl trivial, countP_directional vs Dir.LONG (by simp)⟩

/-- Helper: the part_002 meta-score equals the specification formula as
soon as some verdict agrees with the majority direction (and configured
weights are positive, so the total weight cannot vanish). -/
theorem metaScore_eq_spec_of_nonempty (cfg : Ensemble2.Config) (vs : List WeightedVerdict)
    (ag : Ensemble2.Agreement) (hour : ℕ)
    (hw : ∀ p ∈ cfg.detectorWeights, 0 < p.2)
    (hne : vs.filter (Ensemble2.agrees ag.majorityDirection) ≠ []) :
    Ensemble2.calculateMetaScore cfg vs ag hour =
      Ensemble2.specMetaScore cfg vs ag.majorityDirection hour := by
  have htW : 0 < sumQ ((vs.filter (Ensemble2.agrees ag.majorityDirection)).map
      fun v => Ensemble2.weightOf cfg v.name) := by
    unfold sumQ
    apply List.sum_pos
    · intro x hx
      rcases List.mem_map.mp hx with ⟨v, _, rfl⟩
      exact weightOf_pos cfg hw v.name
    · intro hmapnil
      exact hne (List.map_eq_nil_iff.mp hmapnil)
  unfold Ensemble2.calculateMetaScore Ensemble2.specMetaScore
  dsimp only
  rw [metaFold_wSum, metaFold_tW, metaFold_fams_length, zero_add, zero_add,
    if_neg (ne_of_gt htW)]

/-- C4: for every verdict list passing the agreement threshold (at least 1,
with positively configured per-detector weights), the part_002 meta-score
equals the weighted mean of the scores of the verdicts agreeing with the
majority direction, plus a confluence bonus of 5 points per distinct
detector family beyond the first capped at 20, multiplied by the active
time-of-day multiplier, and clamped to `[0, 100]`. -/
theorem c4_meta_score_formula (cfg : Ensemble2.Config) (vs : List WeightedVerdict) (hour : ℕ)
    (hmin : 1 ≤ cfg.minDetectorAgreement)
    (hw : ∀ p ∈ cfg.detectorWeights, 0 < p.2)
    (hth : cfg.minDetectorAgreement ≤ (Ensemble2.calculateDetectorAgreement vs).majorityCount) :
    Ensemble2.calculateMetaScore cfg vs (Ensemble2.calculateDetectorAgreement vs) hour =
      Ensemble2.specMetaScore cfg vs
        (Ensemble2.calculateDetectorAgreement vs).majorityDirection hour := by
  have hspec := ensemble2_majority_spec vs
  have hagree : ∀ v : WeightedVerdict,
      Ensemble2.agrees (Ensemble2.calculateDetectorAgreement vs).majorityDirection v =
        decide (v.direction = (Ensemble2.calculateDetectorAgreement vs).majorityDirection) := by
    intro v
    rcases hspec.1 with h | h <;> rw [h] <;> rcases v with ⟨nm, sc, dir, rsn, w⟩ <;>
      cases dir <;> rfl
  have hne : vs.filter
      (Ensemble2.agrees (Ensemble2.calculateDetectorAgreement vs).majorityDirection) ≠ [] := by
    have hlen : 0 < (vs.filter
        (Ensemble2.agrees (Ensemble2.calculateDetectorAgreement vs).majorityDirection)).length := by
      rw [List.filter_congr (fun v _ => hagree v), ← List.countP_eq_length_filter]
      have h1 : 1 ≤ vs.countP (fun v =>
          decide (v.direction = (Ensemble2.calculateDetectorAgreement vs).majorityDirection)) :=
        le_trans hmin (le_of_le_of_eq hth hspec.2)
      omega
    exact List.ne_nil_of_length_pos hlen
  exact metaScore_eq_spec_of_nonempty cfg vs _ hour hw hne

set_option maxRecDepth 200000 in
/-- Witness for C4: two agreeing LONG verdicts from distinct families under
the default configuration at hour 12 (multiplier 1.0): the hypotheses hold,
the theorem applies, and the shared value is
`(80 * 1.2 + 70 * 1.0) / 2.2 + 5 = 885/11`. -/
theorem c4_meta_score_formula_witness :
    Ensemble2.calculateMetaScore {} demoVerdicts
      (Ensemble2.calculateDetectorAgreement demoVerdicts) 12 =
      Ensemble2.specMetaScore {} demoVerdicts
        (Ensemble2.calculateDetectorAgreement demoVerdicts).majorityDirection 12 ∧
    Ensemble2.calculateMetaScore {} demoVerdicts
      (Ensemble2.calculateDetectorAgreement demoVerdicts) 12 = 885/11 :=
  ⟨c4_meta_score_formula {} demoVerdicts 12 (by decide)
      (by with_unfolding_all decide) (by with_unfolding_all decide),
    by with_unfolding_all decide⟩
